import Mathlib

/-!
Verification of the ADA voice-assistant core: the keyword router and the
utterance state machine, shallowly embedded from `src/ada/main.py` and
`src/ada/modules/voice_recorder.py`. Strings are Lean `String`s; the Python
substring operator `in`, `str.lower()` and `str.split(",")` are embedded as
executable functions over the underlying character lists.
-/

/-- Embeds Python's `str.lower()` (ASCII range, which covers every keyword
and transcript in the program). -/
def lowerStr (s : String) : String :=
  String.mk (s.data.map Char.toLower)

/-- Embeds Python's substring operator `needle in haystack`: true iff the
character list of `needle` occurs contiguously inside that of `haystack`
(the empty needle occurs in everything, as in Python). -/
def listContains (needle : List Char) : List Char → Bool
  | [] => needle.isEmpty
  | c :: rest => needle.isPrefixOf (c :: rest) || listContains needle rest

/-- `pyIn needle haystack` embeds the Python expression `needle in haystack`
on strings. -/
def pyIn (needle haystack : String) : Bool :=
  listContains needle.data haystack.data

/-- Embeds Python's `s.split(",")` at the character-list level. -/
def splitCommaAux (cur : List Char) : List Char → List (List Char)
  | [] => [cur.reverse]
  | c :: rest =>
    if c = ',' then cur.reverse :: splitCommaAux [] rest
    else splitCommaAux (c :: cur) rest

/-- Embeds Python's `keyword_group.split(",")` from
`get_first_keyword_in_prompt`. -/
def splitComma (s : String) : List String :=
  (splitCommaAux [] s.data).map String.mk

/-- The workflow handlers of `main.py`, as opaque identifiers: the router
maps keyword groups to these functions, and the core never inspects their
bodies. -/
inductive Agent where
  | configure_assistant_workflow
  | example_code_workflow
  | image_to_vue_component_workflow
  | run_bash_command_workflow
  | shell_command_workflow
  | question_answer_workflow
  | soft_talk_workflow
  | end_conversation_workflow
deriving Repr, DecidableEq

/-- The router table of `get_simple_keyword_ai_agent_router` in `main.py`,
in its declared order (Python dicts iterate in insertion order). -/
def get_simple_keyword_ai_agent_router : List (String × Agent) :=
  [("configure,configuration", Agent.configure_assistant_workflow),
   ("example code", Agent.example_code_workflow),
   ("view component", Agent.image_to_vue_component_workflow),
   ("bash,browser", Agent.run_bash_command_workflow),
   ("shell", Agent.shell_command_workflow),
   ("question", Agent.question_answer_workflow),
   ("hello,hey,hi", Agent.soft_talk_workflow),
   ("exit", Agent.end_conversation_workflow)]

/-- Inner loop of `get_first_keyword_in_prompt`: the first keyword of the
group that is a substring of the lowercased prompt. -/
def findMatchingKeyword (prompt : String) : List String → Option String
  | [] => none
  | kw :: rest =>
    if pyIn kw (lowerStr prompt) then some kw
    else findMatchingKeyword prompt rest

/-- Outer loop of `get_first_keyword_in_prompt` over the router table. -/
def firstKeywordMatch (prompt : String) : List (String × Agent) → Option (Agent × String)
  | [] => none
  | (g, a) :: rest =>
    match findMatchingKeyword prompt (splitComma g) with
    | some kw => some (a, kw)
    | none => firstKeywordMatch prompt rest

/-- `get_first_keyword_in_prompt` from `main.py`: returns the pair
`(agent, keyword)` of the first matching group, or `(None, None)`. -/
def get_first_keyword_in_prompt (prompt : String) : Option Agent × Option String :=
  match firstKeywordMatch prompt get_simple_keyword_ai_agent_router with
  | some (a, kw) => (some a, some kw)
  | none => (none, none)

/-- The routing decision used by `on_activation_keyword_detected`: the agent
component of `get_first_keyword_in_prompt` (`None` means no agent is run). -/
def route (prompt : String) : Option Agent :=
  (get_first_keyword_in_prompt prompt).1

/-- The state of `VoiceRecorder` from `voice_recorder.py` that
`process_result` reads and writes (model, device and queue are external
collaborators and carry no transition-relevant state). -/
structure VoiceRecorder where
  activation_keyword : String
  end_keyword : String
  stop_keyword : String
  interaction_transcript : String
  recording : Bool
deriving Repr, DecidableEq

/-- `VoiceRecorder.__init__`: keywords are lowercased, the transcript starts
empty and recording starts off. -/
def VoiceRecorder.init (activation endKw stopKw : String) : VoiceRecorder :=
  { activation_keyword := lowerStr activation
    end_keyword := lowerStr endKw
    stop_keyword := lowerStr stopKw
    interaction_transcript := ""
    recording := false }

/-- `VoiceRecorder.start_interaction`: sets the recording flag. -/
def VoiceRecorder.start_interaction (vr : VoiceRecorder) : VoiceRecorder :=
  { vr with recording := true }

/-- `VoiceRecorder.stop_interaction`: calls `process_command` on the
accumulated transcript (returned as the list of collaborator calls), then
clears the transcript and the recording flag. -/
def VoiceRecorder.stop_interaction (vr : VoiceRecorder) : VoiceRecorder × List String :=
  ({ vr with interaction_transcript := "", recording := false },
   [vr.interaction_transcript])

/-- The trailing `if self.recording: self.interaction_transcript += " " + transcript`
of `process_result`. -/
def VoiceRecorder.appendIfRecording (vr : VoiceRecorder) (transcript : String) : VoiceRecorder :=
  if vr.recording then
    { vr with interaction_transcript := vr.interaction_transcript ++ " " ++ transcript }
  else vr

/-- `VoiceRecorder.process_result`: one step of the utterance state machine.
Returns the new state, the continue flag (`False` shuts the listening loop
down), and the list of `process_command` collaborator calls made during the
step. The branch structure mirrors the Python `if`/`elif` chain, with the
early `return False` of the stop branch skipping the trailing append. -/
def VoiceRecorder.process_result (vr : VoiceRecorder) (transcript : String) :
    VoiceRecorder × Bool × List String :=
  if pyIn vr.activation_keyword transcript && !vr.recording then
    ((vr.start_interaction).appendIfRecording transcript, true, [])
  else if pyIn vr.end_keyword transcript && vr.recording then
    let r := vr.stop_interaction
    (r.1.appendIfRecording transcript, true, r.2)
  else if pyIn vr.stop_keyword transcript then
    (vr, false, [])
  else
    (vr.appendIfRecording transcript, true, [])

/-- `VoiceRecorder.continuous_listen`, restricted to its control flow over a
serial stream of recognized transcripts: processes fragments in order and
breaks out of the loop when `process_result` returns `False`. Returns the
final state, all `process_command` calls in order, and whether the loop shut
down (hit the break). -/
def continuous_listen (vr : VoiceRecorder) : List String → VoiceRecorder × List String × Bool
  | [] => (vr, [], false)
  | t :: rest =>
    let r := vr.process_result t
    if r.2.1 then
      let k := continuous_listen r.1 rest
      (k.1, r.2.2 ++ k.2.1, k.2.2)
    else (r.1, r.2.2, true)

/-- Output of `transcribe_audio_file` in `main.py`: the transcript it
returns together with the lines it prints when the Deepgram call raises. -/
structure TranscribeResult where
  transcript : String
  logged : List String
deriving Repr, DecidableEq

/-- `transcribe_audio_file` from `main.py`: the whole body sits in a
`try`/`except Exception` block, so a raising transcription collaborator
(modelled as the `Except` argument) is caught, its message printed, and the
empty string returned. -/
def transcribe_audio_file (call : Except String String) : TranscribeResult :=
  match call with
  | Except.ok t => { transcript := t, logged := [] }
  | Except.error e => { transcript := "", logged := ["Exception: " ++ e] }

/-- Observable outcome of one iteration of `personal_ai_assistant_loop`. -/
structure IterResult where
  transcript : String
  handlerInvoked : Bool
  fileRemoved : Bool
  continued : Bool
deriving Repr, DecidableEq

/-- One iteration of `personal_ai_assistant_loop` from `main.py`, after the
chunk file has been recorded and saved: transcribe the file (internally
recovering from collaborator failure), call `on_keywords` when the lowercased
activation keyword occurs in the lowercased transcript, then `os.remove` the
chunk file. `on_keywords` may raise (modelled by `Except`); the loop body has
no `try`/`finally`, so a raising handler aborts the iteration before
`os.remove` runs and the `while True` loop does not reach its next pass. -/
def personal_ai_assistant_loop_iter (activation_keyword : String)
    (transcription : Except String String)
    (on_keywords : String → Except String Unit) : IterResult :=
  let transcript := (transcribe_audio_file transcription).transcript
  if pyIn (lowerStr activation_keyword) (lowerStr transcript) then
    match on_keywords transcript with
    | Except.ok _ =>
      { transcript := transcript, handlerInvoked := true,
        fileRemoved := true, continued := true }
    | Except.error _ =>
      { transcript := transcript, handlerInvoked := true,
        fileRemoved := false, continued := false }
  else
    { transcript := transcript, handlerInvoked := false,
      fileRemoved := true, continued := true }

/-- `editor.edit` from `modules/editor.py`, reduced to its temp-file
lifecycle: write the scratch file, run the editor subprocess and read the
result back (both modelled by the `Except` argument carrying the content
read back on success), then `os.remove` the scratch file. There is no
`try`/`finally`, so when the editor step raises, the exception propagates
before the removal. Returns whether the scratch file was removed and the
content returned, if any. -/
def edit (contents : String) (editorRun : Except String String) :
    Bool × Option String :=
  match contents, editorRun with
  | _, Except.ok modified => (true, some modified)
  | _, Except.error _ => (false, none)

/-- The on-disk state of `config.json` when `main.py` is imported. -/
inductive ConfigFile where
  | absent
  | malformed (raw : String)
  | wellFormed (working_directory : Option String)
deriving Repr, DecidableEq

/-- Outcome of the module-level configuration load of `main.py`. -/
structure ConfigStartup where
  working_directory : Option String
  persistedFreshDefault : Bool
deriving Repr, DecidableEq

/-- The module-level configuration load of `main.py`: `json.load` inside a
`try` whose only handler is `except FileNotFoundError`. A missing file is
defaulted to `working_directory = None` and the fresh default document is
written back; a present but malformed file makes `json.load` raise
`json.JSONDecodeError`, which no handler catches, so startup fails
(modelled as `Except.error`). -/
def configuration_startup : ConfigFile → Except String ConfigStartup
  | ConfigFile.absent =>
    Except.ok { working_directory := none, persistedFreshDefault := true }
  | ConfigFile.malformed _ => Except.error "json.decoder.JSONDecodeError"
  | ConfigFile.wellFormed wd =>
    Except.ok { working_directory := wd, persistedFreshDefault := false }

/-- Specification-side matching relation of spec §4.1: some comma-delimited
alternative of the group occurs as a contiguous substring (an infix, not a
whole word) of the lowercased transcript. -/
def groupMatches (t g : String) : Prop :=
  ∃ kw ∈ splitComma g, kw.data <:+: (lowerStr t).data

/-- Executable form of `groupMatches`, for evaluating concrete instances. -/
def groupMatchesB (t g : String) : Bool :=
  (splitComma g).any (fun kw => pyIn kw (lowerStr t))

theorem listContains_correct (needle hay : List Char) :
    listContains needle hay = true ↔ needle <:+: hay := by
  induction hay with
  | nil => simp [listContains, List.isEmpty_iff, List.infix_nil]
  | cons c rest ih =>
    simp [listContains, List.isPrefixOf_iff_prefix, List.infix_cons_iff, ih,
      Bool.or_eq_true]

theorem pyIn_correct (needle hay : String) :
    pyIn needle hay = true ↔ needle.data <:+: hay.data :=
  listContains_correct needle.data hay.data

theorem groupMatches_iff (t g : String) :
    groupMatches t g ↔ groupMatchesB t g = true := by
  simp [groupMatches, groupMatchesB, List.any_eq_true, pyIn_correct]

theorem findMatchingKeyword_eq_none (prompt : String) (kws : List String)
    (h : ∀ kw ∈ kws, ¬ kw.data <:+: (lowerStr prompt).data) :
    findMatchingKeyword prompt kws = none := by
  induction kws with
  | nil => rfl
  | cons kw rest ih =>
    have hkw : pyIn kw (lowerStr prompt) = false := by
      cases hpy : pyIn kw (lowerStr prompt)
      · rfl
      · exact absurd ((pyIn_correct _ _).mp hpy) (h kw (by simp))
    simp only [findMatchingKeyword, hkw, Bool.false_eq_true, if_false]
    exact ih (fun k hk => h k (by simp [hk]))

theorem findMatchingKeyword_isSome (prompt : String) (kws : List String)
    (h : ∃ kw ∈ kws, kw.data <:+: (lowerStr prompt).data) :
    ∃ kw, findMatchingKeyword prompt kws = some kw := by
  induction kws with
  | nil => simp at h
  | cons kw rest ih =>
    by_cases hpy : pyIn kw (lowerStr prompt) = true
    · exact ⟨kw, by simp [findMatchingKeyword, hpy]⟩
    · have hrest : ∃ k ∈ rest, k.data <:+: (lowerStr prompt).data := by
        rcases h with ⟨k, hk, hinf⟩
        rcases List.mem_cons.mp hk with rfl | hmem
        · exact absurd ((pyIn_correct _ _).mpr hinf) hpy
        · exact ⟨k, hmem, hinf⟩
      rcases ih hrest with ⟨k, hk⟩
      exact ⟨k, by simp [findMatchingKeyword, hpy, hk]⟩

theorem firstKeywordMatch_eq_none (t : String) (l : List (String × Agent))
    (h : ∀ p ∈ l, ¬ groupMatches t p.1) :
    firstKeywordMatch t l = none := by
  induction l with
  | nil => rfl
  | cons hd rest ih =>
    obtain ⟨g, a⟩ := hd
    have hg : findMatchingKeyword t (splitComma g) = none :=
      findMatchingKeyword_eq_none t _
        (fun kw hkw hinf => h (g, a) (by simp) ⟨kw, hkw, hinf⟩)
    simp only [firstKeywordMatch, hg]
    exact ih (fun q hq => h q (by simp [hq]))

theorem firstKeywordMatch_first (t : String) :
    ∀ (l : List (String × Agent)) (i : Nat) (p : String × Agent),
      l[i]? = some p → groupMatches t p.1 →
      (∀ j q, j < i → l[j]? = some q → ¬ groupMatches t q.1) →
      ∃ kw, firstKeywordMatch t l = some (p.2, kw) := by
  intro l
  induction l with
  | nil => intro i p hp _ _; simp at hp
  | cons hd rest ih =>
    intro i p hp hmatch hbefore
    obtain ⟨g, a⟩ := hd
    cases i with
    | zero =>
      have hp' : (g, a) = p := by simpa using hp
      subst hp'
      rcases findMatchingKeyword_isSome t (splitComma g) hmatch with ⟨kw, hkw⟩
      exact ⟨kw, by simp [firstKeywordMatch, hkw]⟩
    | succ n =>
      have h0 : ¬ groupMatches t g :=
        hbefore 0 (g, a) (Nat.succ_pos _) (by simp)
      have hg : findMatchingKeyword t (splitComma g) = none :=
        findMatchingKeyword_eq_none t _ (fun kw hkw hinf => h0 ⟨kw, hkw, hinf⟩)
      rcases ih n p (by simpa using hp) hmatch
          (fun j q hj hq =>
            hbefore (j + 1) q (Nat.succ_lt_succ hj) (by simpa using hq)) with
        ⟨kw, hkw⟩
      exact ⟨kw, by simp [firstKeywordMatch, hg, hkw]⟩

theorem no_match_before_of_take_all (t : String) (l : List (String × Agent))
    (i : Nat) (h : (l.take i).all (fun p => !groupMatchesB t p.1) = true) :
    ∀ j q, j < i → l[j]? = some q → ¬ groupMatches t q.1 := by
  intro j q hj hq hm
  have hq' : (l.take i)[j]? = some q := by
    rw [List.getElem?_take]
    simp [hj, hq]
  have hqmem : q ∈ l.take i := by
    rcases List.getElem?_eq_some.mp hq' with ⟨hlt, hget⟩
    exact hget ▸ List.getElem_mem hlt
  have hall := (List.all_eq_true.mp h) q hqmem
  rw [groupMatches_iff] at hm
  simp [hm] at hall

theorem no_group_matches_of_all (t : String) (l : List (String × Agent))
    (h : l.all (fun p => !groupMatchesB t p.1) = true) :
    ∀ p ∈ l, ¬ groupMatches t p.1 := by
  intro p hp hm
  have hall := (List.all_eq_true.mp h) p hp
  rw [groupMatches_iff] at hm
  simp [hm] at hall

/-- The buffer invariant of the `VoiceRecorder` state machine: a machine
that is not recording has an empty interaction transcript. -/
def bufferInv (vr : VoiceRecorder) : Prop :=
  vr.recording = false → vr.interaction_transcript = ""

theorem process_result_preserves_bufferInv (vr : VoiceRecorder) (t : String)
    (h : bufferInv vr) : bufferInv (vr.process_result t).1 := by
  unfold bufferInv at h ⊢
  unfold VoiceRecorder.process_result VoiceRecorder.start_interaction
    VoiceRecorder.stop_interaction VoiceRecorder.appendIfRecording
  cases hrec : vr.recording with
  | false =>
    intro hr
    by_cases h1 : pyIn vr.activation_keyword t = true
    · simp [h1, hrec] at hr
    · by_cases h3 : pyIn vr.stop_keyword t = true
      · simpa [h1, h3, hrec] using h hrec
      · simpa [h1, h3, hrec] using h hrec
  | true =>
    intro hr
    by_cases h2 : pyIn vr.end_keyword t = true
    · simp [h2, hrec]
    · by_cases h3 : pyIn vr.stop_keyword t = true
      · simp [h2, h3, hrec] at hr
      · simp [h2, h3, hrec] at hr

theorem continuous_listen_preserves_bufferInv (ts : List String) :
    ∀ vr : VoiceRecorder, bufferInv vr →
      bufferInv (continuous_listen vr ts).1 := by
  induction ts with
  | nil => intro vr h; exact h
  | cons t rest ih =>
    intro vr h
    unfold continuous_listen
    by_cases hc : (vr.process_result t).2.1 = true
    · simpa [hc] using ih _ (process_result_preserves_bufferInv vr t h)
    · simpa [hc] using process_result_preserves_bufferInv vr t h

/-- C2 (counterexample): from the initial idle state, feeding a fragment
containing the activation phrase leaves the machine with the buffer
" hello ada", not the empty buffer the claim requires, so the activation
fragment was appended. -/
theorem activation_fragment_appended_counterexample :
    ((VoiceRecorder.init "Hello Ada" "thanks" "stop recording").process_result
        "hello ada").1.recording = true ∧
    ((VoiceRecorder.init "Hello Ada" "thanks" "stop recording").process_result
        "hello ada").1.interaction_transcript = " hello ada" ∧
    (" hello ada" : String) ≠ "" := by decide

/-- C2 (amended): in any non-recording state, feeding a fragment containing
the activation phrase transitions to Recording, makes no command-processor
call, does not reset the buffer, and appends the activation fragment itself
to the buffer with a leading space. -/
theorem activation_starts_recording_and_appends (vr : VoiceRecorder)
    (t : String) (hidle : vr.recording = false)
    (hact : pyIn vr.activation_keyword t = true) :
    vr.process_result t =
      ({ vr with
         recording := true
         interaction_transcript := vr.interaction_transcript ++ " " ++ t },
       true, []) := by
  unfold VoiceRecorder.process_result VoiceRecorder.start_interaction
    VoiceRecorder.appendIfRecording
  simp [hidle, hact]

/-- Witness for C2 (amended) at the initial state and the fragment
"hello ada". -/
theorem activation_starts_recording_and_appends_witness :
    (VoiceRecorder.init "Hello Ada" "thanks" "stop recording").process_result
        "hello ada" =
      ({ VoiceRecorder.init "Hello Ada" "thanks" "stop recording" with
         recording := true, interaction_transcript := " hello ada" },
       true, []) :=
  (activation_starts_recording_and_appends
      (VoiceRecorder.init "Hello Ada" "thanks" "stop recording") "hello ada"
      (by decide) (by decide)).trans (by decide)

/-- C3: whenever the machine is recording and the fragment contains the end
phrase, the step makes exactly one command-processor call, whose argument is
the full current buffer, and the machine returns to idle with an empty
buffer (the end fragment itself is not appended). -/
theorem end_phrase_flushes_full_buffer (vr : VoiceRecorder) (t : String)
    (hrec : vr.recording = true) (hend : pyIn vr.end_keyword t = true) :
    vr.process_result t =
      ({ vr with interaction_transcript := "", recording := false }, true,
       [vr.interaction_transcript]) := by
  unfold VoiceRecorder.process_result VoiceRecorder.stop_interaction
    VoiceRecorder.appendIfRecording
  simp [hrec, hend]

/-- Witness for C3 at a recording state with buffer " build the thing" and
the fragment "thanks". -/
theorem end_phrase_flushes_full_buffer_witness :
    ({ VoiceRecorder.init "Hello Ada" "thanks" "stop recording" with
       recording := true
       interaction_transcript := " build the thing" }).process_result
        "thanks" =
      (VoiceRecorder.init "Hello Ada" "thanks" "stop recording", true,
       [" build the thing"]) :=
  (end_phrase_flushes_full_buffer
      { VoiceRecorder.init "Hello Ada" "thanks" "stop recording" with
        recording := true, interaction_transcript := " build the thing" }
      "thanks" (by decide) (by decide)).trans (by decide)

/-- C4 (counterexample): feeding "build", "the", "thing" while recording
with an empty buffer yields the buffer " build the thing" (leading space),
not "build the thing" as the claim states. -/
theorem recording_fragments_counterexample :
    (continuous_listen
        { VoiceRecorder.init "Hello Ada" "thanks" "stop recording" with
          recording := true }
        ["build", "the", "thing"]).1.interaction_transcript =
      " build the thing" ∧
    (" build the thing" : String) ≠ "build the thing" := by decide

/-- C4 (amended): feeding the fragments "build", "the", "thing" in order
while recording with an empty buffer yields the buffer " build the thing":
order preserved and fragments single-space-separated, but every fragment is
appended with a leading space, so the buffer starts with a space. No
command-processor call occurs and the loop keeps running. -/
theorem recording_fragments_accumulate_with_leading_space :
    continuous_listen
        { VoiceRecorder.init "Hello Ada" "thanks" "stop recording" with
          recording := true }
        ["build", "the", "thing"] =
      ({ VoiceRecorder.init "Hello Ada" "thanks" "stop recording" with
         recording := true, interaction_transcript := " build the thing" },
       [], false) := by decide

/-- C6 (counterexample): the fragment "hello ada stop recording" contains
the stop phrase, yet from the idle initial state the machine returns the
continue signal (the activation branch of the if/elif chain wins), while
from a recording state the same fragment terminates: termination on a
stop-phrase fragment is not state-independent. -/
theorem stop_phrase_not_state_independent :
    pyIn (VoiceRecorder.init "Hello Ada" "thanks" "stop recording").stop_keyword
        "hello ada stop recording" = true ∧
    ((VoiceRecorder.init "Hello Ada" "thanks" "stop recording").process_result
        "hello ada stop recording").2.1 = true ∧
    (({ VoiceRecorder.init "Hello Ada" "thanks" "stop recording" with
        recording := true }).process_result
        "hello ada stop recording").2.1 = false := by decide

/-- C6 (amended): in either state, a fragment containing the stop phrase
makes `process_result` return the terminate signal with the state untouched
and no command-processor call, provided no earlier branch of the if/elif
chain fires first (the fragment does not contain the activation phrase when
idle, nor the end phrase when recording); the listening loop then shuts
down without processing any later fragment. -/
theorem stop_phrase_terminates_listening (vr : VoiceRecorder) (t : String)
    (rest : List String) (hstop : pyIn vr.stop_keyword t = true)
    (hact : vr.recording = false → pyIn vr.activation_keyword t = false)
    (hend : vr.recording = true → pyIn vr.end_keyword t = false) :
    vr.process_result t = (vr, false, []) ∧
    continuous_listen vr (t :: rest) = (vr, [], true) := by
  have hpr : vr.process_result t = (vr, false, []) := by
    unfold VoiceRecorder.process_result
    cases hrec : vr.recording with
    | false => simp [hact hrec, hstop, hrec]
    | true => simp [hend hrec, hstop, hrec]
  refine ⟨hpr, ?_⟩
  unfold continuous_listen
  simp [hpr]

/-- Witness for C6 (amended): from the idle initial state, "stop recording"
terminates and the pending fragment "hello ada" is never processed. -/
theorem stop_phrase_terminates_listening_witness :
    (VoiceRecorder.init "Hello Ada" "thanks" "stop recording").process_result
        "stop recording" =
      (VoiceRecorder.init "Hello Ada" "thanks" "stop recording", false, []) ∧
    continuous_listen (VoiceRecorder.init "Hello Ada" "thanks" "stop recording")
        ["stop recording", "hello ada"] =
      (VoiceRecorder.init "Hello Ada" "thanks" "stop recording", [], true) :=
  stop_phrase_terminates_listening
    (VoiceRecorder.init "Hello Ada" "thanks" "stop recording")
    "stop recording" ["hello ada"] (by decide) (fun _ => by decide)
    (fun _ => by decide)

/-- C10: the buffer invariant holds in the initial state and after every
run of the state machine: whenever `recording` is false, the interaction
transcript is empty. -/
theorem voiceRecorder_buffer_empty_when_idle (a e s : String)
    (ts : List String) :
    bufferInv (VoiceRecorder.init a e s) ∧
    bufferInv (continuous_listen (VoiceRecorder.init a e s) ts).1 := by
  have h0 : bufferInv (VoiceRecorder.init a e s) := fun _ => rfl
  exact ⟨h0, continuous_listen_preserves_bufferInv ts _ h0⟩

/-- C1 (counterexample): the transcript "hello question" contains keywords
of both the "question" group and the "hello,hey,hi" group, and routes to
the question handler, not the hello handler: in the declared table the
"question" group comes before the "hello,hey,hi" group. -/
theorem router_hello_question_example_false :
    groupMatchesB "hello question" "question" = true ∧
    groupMatchesB "hello question" "hello,hey,hi" = true ∧
    route "hello question" = some Agent.question_answer_workflow ∧
    route "hello question" ≠ some Agent.soft_talk_workflow := by decide

/-- C1 (amended): when a transcript contains keywords of two groups, the
group declared earlier in the table wins (formally: if the group at index i
matches, a later group at index j also matches, and no group before i
matches, the router returns the handler at index i); but the "question"
group is declared before the "hello,hey,hi" group, so a transcript
containing both "hello" and "question" routes to the question handler. -/
theorem router_earliest_declared_group_wins :
    (∀ (t : String) (i j : Nat) (p q : String × Agent),
        get_simple_keyword_ai_agent_router[i]? = some p →
        get_simple_keyword_ai_agent_router[j]? = some q →
        i < j → groupMatches t p.1 → groupMatches t q.1 →
        (∀ k r, k < i → get_simple_keyword_ai_agent_router[k]? = some r →
          ¬ groupMatches t r.1) →
        route t = some p.2) ∧
    route "hello question" = some Agent.question_answer_workflow := by
  constructor
  · intro t i j p q hp hq hij hmp hmq hbefore
    rcases firstKeywordMatch_first t get_simple_keyword_ai_agent_router i p
        hp hmp hbefore with ⟨kw, hkw⟩
    simp [route, get_first_keyword_in_prompt, hkw]
  · decide

/-- Witness for C1 (amended): "run a bash question command" matches the
"bash,browser" group (index 3) and the later "question" group (index 5),
no group before index 3 matches, and the router picks the bash handler. -/
theorem router_earliest_declared_group_wins_witness :
    route "run a bash question command" = some Agent.run_bash_command_workflow :=
  router_earliest_declared_group_wins.1 "run a bash question command" 3 5
    ("bash,browser", Agent.run_bash_command_workflow)
    ("question", Agent.question_answer_workflow)
    (by decide) (by decide) (by decide)
    ((groupMatches_iff _ _).mpr (by decide))
    ((groupMatches_iff _ _).mpr (by decide))
    (no_match_before_of_take_all _ _ 3 (by decide))

/-- C5: the router lowercases the transcript and returns the handler of the
first declared group one of whose comma-delimited keyword alternatives
occurs as a substring of the lowercased transcript; when no declared
keyword occurs, it returns none. -/
theorem router_first_substring_match_or_none (t : String) :
    ((∀ p ∈ get_simple_keyword_ai_agent_router, ¬ groupMatches t p.1) →
      route t = none) ∧
    (∀ (i : Nat) (p : String × Agent),
      get_simple_keyword_ai_agent_router[i]? = some p → groupMatches t p.1 →
      (∀ j q, j < i → get_simple_keyword_ai_agent_router[j]? = some q →
        ¬ groupMatches t q.1) →
      route t = some p.2) := by
  constructor
  · intro h
    have hnone := firstKeywordMatch_eq_none t _ h
    simp [route, get_first_keyword_in_prompt, hnone]
  · intro i p hp hm hb
    rcases firstKeywordMatch_first t _ i p hp hm hb with ⟨kw, hkw⟩
    simp [route, get_first_keyword_in_prompt, hkw]

/-- Witness for C5: "what time is it" contains no declared keyword and
routes to none; "tell me a question" matches only the "question" group and
routes to its handler. -/
theorem router_first_substring_match_or_none_witness :
    route "what time is it" = none ∧
    route "tell me a question" = some Agent.question_answer_workflow :=
  ⟨(router_first_substring_match_or_none "what time is it").1
      (no_group_matches_of_all _ _ (by decide)),
   (router_first_substring_match_or_none "tell me a question").2 5
      ("question", Agent.question_answer_workflow) (by decide)
      ((groupMatches_iff _ _).mpr (by decide))
      (no_match_before_of_take_all _ _ 5 (by decide))⟩

/-- C7: when the transcription collaborator raises, `transcribe_audio_file`
catches the failure, logs it, and returns the empty transcript; the loop
iteration then detects no activation (for any non-empty activation
keyword), still removes the chunk file, and continues instead of
crashing. -/
theorem transcription_failure_recovered (activation e : String)
    (on_keywords : String → Except String Unit)
    (hne : activation.data ≠ []) :
    transcribe_audio_file (Except.error e) =
      { transcript := "", logged := ["Exception: " ++ e] } ∧
    personal_ai_assistant_loop_iter activation (Except.error e) on_keywords =
      { transcript := "", handlerInvoked := false, fileRemoved := true,
        continued := true } := by
  have hlow : pyIn (lowerStr activation) (lowerStr "") = false := by
    have h0 : (lowerStr "").data = [] := rfl
    unfold pyIn
    rw [h0]
    show (lowerStr activation).data.isEmpty = false
    have h1 : (lowerStr activation).data = activation.data.map Char.toLower := rfl
    cases hd : activation.data with
    | nil => exact absurd hd hne
    | cons c cs => rw [h1, hd]; rfl
  refine ⟨rfl, ?_⟩
  unfold personal_ai_assistant_loop_iter
  simp only [transcribe_audio_file]
  simp [hlow]

/-- Witness for C7 with activation keyword "Ada" and a failed Deepgram
call. -/
theorem transcription_failure_recovered_witness :
    transcribe_audio_file (Except.error "boom") =
      { transcript := "", logged := ["Exception: " ++ "boom"] } ∧
    personal_ai_assistant_loop_iter "Ada" (Except.error "boom")
        (fun _ => Except.ok ()) =
      { transcript := "", handlerInvoked := false, fileRemoved := true,
        continued := true } :=
  transcription_failure_recovered "Ada" "boom" (fun _ => Except.ok ())
    (by decide)

/-- C8 (counterexample): with activation keyword "Ada", the chunk transcript
"ada hello" activates, the keyword handler raises, and the chunk file is
not removed (there is no try/finally around the handler call before
`os.remove`); likewise a raising editor step in `edit` leaks the scratch
file. -/
theorem handler_raise_leaks_chunk_file :
    (personal_ai_assistant_loop_iter "Ada" (Except.ok "ada hello")
        (fun _ => Except.error "boom")).handlerInvoked = true ∧
    (personal_ai_assistant_loop_iter "Ada" (Except.ok "ada hello")
        (fun _ => Except.error "boom")).fileRemoved = false ∧
    (edit "draft" (Except.error "TextEdit failed")).1 = false := by decide

/-- C8 (amended): temporary files are created, used and deleted within the
same loop iteration or editing step on the non-raising path, but deletion
is not protected against downstream errors: a chunk file is removed exactly
when the iteration completes without the keyword handler raising, and the
scratch edit buffer is removed exactly when the editor step does not
raise. -/
theorem temp_file_removed_iff_no_raise (activation : String)
    (transcription : Except String String)
    (on_keywords : String → Except String Unit)
    (contents modified err : String) :
    (personal_ai_assistant_loop_iter activation transcription
        on_keywords).fileRemoved =
      (personal_ai_assistant_loop_iter activation transcription
        on_keywords).continued ∧
    edit contents (Except.ok modified) = (true, some modified) ∧
    edit contents (Except.error err) = (false, none) := by
  refine ⟨?_, rfl, rfl⟩
  unfold personal_ai_assistant_loop_iter
  by_cases hk : pyIn (lowerStr activation)
      (lowerStr (transcribe_audio_file transcription).transcript) = true
  · simp only [hk, if_true]
    cases on_keywords (transcribe_audio_file transcription).transcript <;> rfl
  · simp [hk]

/-- C9 (counterexample): a present but malformed configuration file is not
treated as absent: startup raises instead of producing the persisted
default document that an absent file produces. -/
theorem malformed_config_not_defaulted :
    configuration_startup (ConfigFile.malformed "not json") ≠
      Except.ok { working_directory := none, persistedFreshDefault := true } ∧
    configuration_startup ConfigFile.absent =
      Except.ok { working_directory := none, persistedFreshDefault := true } :=
  ⟨fun h => Except.noConfusion h, rfl⟩

/-- C9 (amended): only a missing configuration file is treated as absent,
defaulted to `working_directory = None` and persisted as a fresh default
document; a malformed file makes startup fail with an uncaught
JSONDecodeError, and a well-formed file is loaded without persisting a
default. -/
theorem configuration_startup_characterization :
    (∀ raw, configuration_startup (ConfigFile.malformed raw) =
      Except.error "json.decoder.JSONDecodeError") ∧
    configuration_startup ConfigFile.absent =
      Except.ok { working_directory := none, persistedFreshDefault := true } ∧
    (∀ wd, configuration_startup (ConfigFile.wellFormed wd) =
      Except.ok { working_directory := wd, persistedFreshDefault := false }) :=
  ⟨fun _ => rfl, rfl, fun _ => rfl⟩

/-- Witness for C10: after the run "hello ada", "build the thing", "thanks"
from the initial state, recording is off and the buffer is indeed empty. -/
theorem voiceRecorder_buffer_empty_when_idle_witness :
    (continuous_listen (VoiceRecorder.init "Hello Ada" "thanks" "stop recording")
        ["hello ada", "build the thing", "thanks"]).1.interaction_transcript = "" :=
  (voiceRecorder_buffer_empty_when_idle "Hello Ada" "thanks" "stop recording"
      ["hello ada", "build the thing", "thanks"]).2 (by decide)
